import Mathlib

/-!
Shallow embedding of the instance CRUD service of `arpas-backend`
(`app/routes/instances_routes.py` together with the entity model of
`app/models.py`).  The database is modelled as explicit state: lists of
rows plus a counter for the server-assigned primary key.  Each route
handler becomes a pure function from its request data and the database
state to an `Except`-classified response paired with the new state.
The nine transform fields are only ever copied verbatim by the code
(no arithmetic is performed on them), so they are embedded as `Int`.
-/

namespace Arpas

/-- An HTTP error as raised by `HTTPException(status_code=..., detail=...)`. -/
structure HTTPException where
  status_code : Nat
  detail : String
deriving DecidableEq, Repr

/-- Row of the `items` table, from `app/models.py` (`id`, `name`,
`description`, `model_data` as an opaque nullable byte sequence). -/
structure Item where
  id : Int
  name : String
  description : String
  model_data : Option (List Nat)
deriving DecidableEq, Repr

/-- Modelled from the spec: the `Project` entity is referenced by
`Instance` via `project_id` but its row definition is not under `src/`;
the spec details nothing beyond its integer primary key. -/
structure Project where
  id : Int
deriving DecidableEq, Repr

/-- Modelled from the spec: the `InstanceCreate` request schema
(`app/schemas.py` is not under `src/`): `project_id`, `item_id` and the
nine numeric transform fields, all required. -/
structure InstanceCreate where
  project_id : Int
  item_id : Int
  position_x : Int
  position_y : Int
  position_z : Int
  rotation_x : Int
  rotation_y : Int
  rotation_z : Int
  scale_x : Int
  scale_y : Int
  scale_z : Int
deriving DecidableEq, Repr

/-- Modelled from the spec: the `Instance` row (its ORM definition is not
under `src/`): server-assigned integer primary key `id`, the two foreign
keys and the nine transform fields, exactly the fields written by the
router code. -/
structure Instance where
  id : Int
  project_id : Int
  item_id : Int
  position_x : Int
  position_y : Int
  position_z : Int
  rotation_x : Int
  rotation_y : Int
  rotation_z : Int
  scale_x : Int
  scale_y : Int
  scale_z : Int
deriving DecidableEq, Repr

/-- The database state: the three tables plus the next primary key the
storage engine will assign to a freshly inserted `Instance` row. -/
structure DB where
  projects : List Project
  items : List Item
  instances : List Instance
  next_id : Int
deriving DecidableEq, Repr

/-- `db.query(T).filter(T.id == x).first()`: the first row whose primary
key equals `x`, if any. -/
def firstProject (db : DB) (pid : Int) : Option Project :=
  db.projects.find? (fun p => p.id == pid)

/-- `db.query(Item).filter(Item.id == x).first()`. -/
def firstItem (db : DB) (iid : Int) : Option Item :=
  db.items.find? (fun i => i.id == iid)

/-- `db.query(Instance).filter(Instance.id == x).first()`. -/
def firstInstance (db : DB) (iid : Int) : Option Instance :=
  db.instances.find? (fun r => r.id == iid)

/-- In-place mutation of the first row satisfying `p` (SQLAlchemy
attribute assignment on the object returned by `.first()`, then
`commit`): that row is replaced by `v`, all other rows are untouched. -/
def assignFirst (p : α → Bool) (v : α) : List α → List α
  | [] => []
  | x :: xs => if p x then v :: xs else x :: assignFirst p v xs

/-- `create_instance` (POST /instances/): query project and item, raise
404 "Project not found" / "Item not found" when the respective lookup is
empty, otherwise build the new row from the request fields, insert it
and return it with its assigned id. -/
def create_instance (inst : InstanceCreate) (db : DB) :
    Except HTTPException Instance × DB :=
  let project := firstProject db inst.project_id
  let item := firstItem db inst.item_id
  if project.isNone then
    (Except.error ⟨404, "Project not found"⟩, db)
  else if item.isNone then
    (Except.error ⟨404, "Item not found"⟩, db)
  else
    let new_instance : Instance :=
      { id := db.next_id
        project_id := inst.project_id
        item_id := inst.item_id
        position_x := inst.position_x
        position_y := inst.position_y
        position_z := inst.position_z
        rotation_x := inst.rotation_x
        rotation_y := inst.rotation_y
        rotation_z := inst.rotation_z
        scale_x := inst.scale_x
        scale_y := inst.scale_y
        scale_z := inst.scale_z }
    (Except.ok new_instance,
      { db with
          instances := db.instances ++ [new_instance]
          next_id := db.next_id + 1 })

/-- `update_instance` (PUT /instances/{instance_id}): check instance,
then project, then item existence, each failure a 404 with its own
detail; on success assign both foreign keys and all nine transform
fields of the found row from the request and return the updated row. -/
def update_instance (instance_id : Int) (instance_update : InstanceCreate)
    (db : DB) : Except HTTPException Instance × DB :=
  match firstInstance db instance_id with
  | none => (Except.error ⟨404, "Instance not found"⟩, db)
  | some existing_instance =>
    let project := firstProject db instance_update.project_id
    let item := firstItem db instance_update.item_id
    if project.isNone then
      (Except.error ⟨404, "Project not found"⟩, db)
    else if item.isNone then
      (Except.error ⟨404, "Item not found"⟩, db)
    else
      let updated : Instance :=
        { existing_instance with
            project_id := instance_update.project_id
            item_id := instance_update.item_id
            position_x := instance_update.position_x
            position_y := instance_update.position_y
            position_z := instance_update.position_z
            rotation_x := instance_update.rotation_x
            rotation_y := instance_update.rotation_y
            rotation_z := instance_update.rotation_z
            scale_x := instance_update.scale_x
            scale_y := instance_update.scale_y
            scale_z := instance_update.scale_z }
      (Except.ok updated,
        { db with
            instances := assignFirst (fun r => r.id == instance_id) updated
              db.instances })

/-- `get_instance` (GET /instances/{instance_id}): look the row up, 404
"Instance not found" when absent, otherwise return it; no mutation. -/
def get_instance (instance_id : Int) (db : DB) :
    Except HTTPException Instance × DB :=
  match firstInstance db instance_id with
  | none => (Except.error ⟨404, "Instance not found"⟩, db)
  | some inst => (Except.ok inst, db)

/-- `list_instances` (GET /instances/): `db.query(Instance).all()` — the
full list of stored rows; the handler contains no raise. -/
def list_instances (db : DB) : List Instance × DB :=
  (db.instances, db)

/-- The response of a successful delete: the decorator declares status
204 and the handler returns the JSON confirmation body. -/
structure DeleteResponse where
  status_code : Nat
  message : String
deriving DecidableEq, Repr

/-- `delete_instance` (DELETE /instances/{instance_id}): look the row
up, 404 "Instance not found" when absent, otherwise remove it and
return the confirmation under the declared 204 status. -/
def delete_instance (instance_id : Int) (db : DB) :
    Except HTTPException DeleteResponse × DB :=
  match firstInstance db instance_id with
  | none => (Except.error ⟨404, "Instance not found"⟩, db)
  | some _ =>
    (Except.ok ⟨204, "Instance deleted successfully"⟩,
      { db with
          instances := db.instances.eraseP (fun r => r.id == instance_id) })

/-- A sequence of create requests, executed left to right; returns the
successfully created rows together with the final state. -/
def createMany (xs : List InstanceCreate) (db : DB) :
    List Instance × DB :=
  match xs with
  | [] => ([], db)
  | x :: rest =>
    match create_instance x db with
    | (Except.ok row, db1) =>
      let r := createMany rest db1
      (row :: r.1, r.2)
    | (Except.error _, db1) => createMany rest db1

/-! Concrete sample data, used by the witness theorems. -/

/-- A stored instance row with id 1, placed in project 1 with item 1. -/
def sampleInstance : Instance :=
  { id := 1, project_id := 1, item_id := 1
    position_x := 0, position_y := 0, position_z := 0
    rotation_x := 0, rotation_y := 0, rotation_z := 0
    scale_x := 1, scale_y := 1, scale_z := 1 }

/-- A database seeded with project 1, item 1 and one instance row. -/
def sampleDB : DB :=
  { projects := [⟨1⟩]
    items := [⟨1, "cube", "a cube", none⟩]
    instances := [sampleInstance]
    next_id := 2 }

/-- A valid create/update body referencing project 1 and item 1. -/
def sampleCreate : InstanceCreate :=
  { project_id := 1, item_id := 1
    position_x := 3, position_y := 4, position_z := 5
    rotation_x := 6, rotation_y := 7, rotation_z := 8
    scale_x := 9, scale_y := 10, scale_z := 11 }

/-- A create/update body whose foreign keys resolve to nothing. -/
def badCreate : InstanceCreate :=
  { project_id := 99, item_id := 99
    position_x := 0, position_y := 0, position_z := 0
    rotation_x := 0, rotation_y := 0, rotation_z := 0
    scale_x := 1, scale_y := 1, scale_z := 1 }

/-! Helper lemmas about the list operations the handlers use. -/

/-- Replacing the first match of `assignFirst` by a row with the same
primary key leaves the list of primary keys unchanged. -/
theorem map_id_assignFirst (l : List Instance) (iid : Int) (v : Instance)
    (hv : ∀ x ∈ l, (x.id == iid) = true → v.id = x.id) :
    (assignFirst (fun r => r.id == iid) v l).map Instance.id =
      l.map Instance.id := by
  induction l with
  | nil => rfl
  | cons x xs ih =>
    by_cases hx : (x.id == iid) = true
    · simp [assignFirst, hx, hv x (by simp) hx]
    · have h1 : assignFirst (fun r => r.id == iid) v (x :: xs)
          = x :: assignFirst (fun r => r.id == iid) v xs := by
        simp [assignFirst, hx]
      rw [h1, List.map_cons, List.map_cons,
        ih (fun y hy h => hv y (by simp [hy]) h)]

/-- After `assignFirst p v` on a list holding a match, the first match
of `p` is `v` itself (provided `p v`). -/
theorem find?_assignFirst (p : α → Bool) (v : α) (l : List α)
    (hp : p v = true) (hl : (l.find? p).isSome) :
    (assignFirst p v l).find? p = some v := by
  induction l with
  | nil => simp [List.find?] at hl
  | cons x xs ih =>
    by_cases hx : p x = true
    · simp [assignFirst, hx, List.find?_cons, hp]
    · have h1 : assignFirst p v (x :: xs) = x :: assignFirst p v xs := by
        simp [assignFirst, hx]
      rw [h1, List.find?_cons_of_neg _ hx]
      exact ih (by rwa [List.find?_cons_of_neg _ hx] at hl)

/-- With pairwise-distinct primary keys, erasing the row with key `iid`
leaves no row with key `iid` behind. -/
theorem find?_eraseP_id_none (l : List Instance) (iid : Int)
    (hnd : (l.map Instance.id).Nodup) :
    (l.eraseP (fun r => r.id == iid)).find? (fun r => r.id == iid) =
      none := by
  induction l with
  | nil => rfl
  | cons x xs ih =>
    rw [List.map_cons, List.nodup_cons] at hnd
    by_cases hx : (x.id == iid) = true
    · rw [List.eraseP_cons, hx, cond_true, List.find?_eq_none]
      intro y hy hyid
      apply hnd.1
      have hx' : x.id = iid := by simpa using hx
      have hy' : y.id = iid := by simpa using hyid
      rw [hx', ← hy']
      exact List.mem_map_of_mem Instance.id hy
    · have hx' : (x.id == iid) = false := by simpa using hx
      rw [List.eraseP_cons, hx', cond_false]
      have h2 : List.find? (fun r => r.id == iid)
          (x :: List.eraseP (fun r => r.id == iid) xs)
          = List.find? (fun r => r.id == iid)
            (List.eraseP (fun r => r.id == iid) xs) :=
        List.find?_cons_of_neg _ hx
      rw [h2]
      exact ih hnd.2

/-! Claim theorems. -/

/-- C1: when the create request's `project_id` does not resolve,
`create_instance` raises 404 "Project not found"; when the project
resolves but `item_id` does not, it raises 404 "Item not found"; in
either failure case the stored set of instances is unchanged. -/
theorem create_instance_notFound (x : InstanceCreate) (db : DB)
    (h : firstProject db x.project_id = none ∨
      firstItem db x.item_id = none) :
    (create_instance x db).2.instances = db.instances ∧
    (firstProject db x.project_id = none →
      (create_instance x db).1 = Except.error ⟨404, "Project not found"⟩) ∧
    (firstProject db x.project_id ≠ none → firstItem db x.item_id = none →
      (create_instance x db).1 = Except.error ⟨404, "Item not found"⟩) := by
  by_cases hp : firstProject db x.project_id = none
  · refine ⟨by simp [create_instance, hp], fun _ => by simp [create_instance, hp],
      fun hne _ => absurd hp hne⟩
  · have hi : firstItem db x.item_id = none := h.resolve_left hp
    exact ⟨by simp [create_instance, hp, hi, Option.isNone_iff_eq_none],
      fun h0 => absurd h0 hp,
      fun _ _ => by simp [create_instance, hp, hi, Option.isNone_iff_eq_none]⟩

/-- Witness for C1 at a concrete database: both foreign keys of
`badCreate` are unresolved, so create fails with "Project not found". -/
theorem create_instance_notFound_witness :
    (create_instance badCreate sampleDB).1 =
      Except.error ⟨404, "Project not found"⟩ :=
  (create_instance_notFound badCreate sampleDB
    (Or.inl (by decide))).2.1 (by decide)

/-- C4: `update_instance` checks instance existence first, then project,
then item: an unresolved `instance_id` yields "Instance not found"
whatever the other ids are, and a resolved instance with both
`project_id` and `item_id` unresolved yields "Project not found". -/
theorem update_instance_check_order (iid : Int) (u : InstanceCreate)
    (db : DB) :
    (firstInstance db iid = none →
      (update_instance iid u db).1 =
        Except.error ⟨404, "Instance not found"⟩) ∧
    ((firstInstance db iid).isSome →
      firstProject db u.project_id = none →
      firstItem db u.item_id = none →
      (update_instance iid u db).1 =
        Except.error ⟨404, "Project not found"⟩) := by
  constructor
  · intro h
    simp [update_instance, h]
  · intro h hp hi
    obtain ⟨ex, hex⟩ := Option.isSome_iff_exists.mp h
    simp [update_instance, hex, hp, hi, Option.isNone_iff_eq_none]

/-- Witness for C4: a missing instance id reports "Instance not found",
and an existing instance with two dangling foreign keys reports
"Project not found". -/
theorem update_instance_check_order_witness :
    (update_instance 99 sampleCreate sampleDB).1 =
      Except.error ⟨404, "Instance not found"⟩ ∧
    (update_instance 1 badCreate sampleDB).1 =
      Except.error ⟨404, "Project not found"⟩ :=
  ⟨(update_instance_check_order 99 sampleCreate sampleDB).1 (by decide),
    (update_instance_check_order 1 badCreate sampleDB).2 (by decide)
      (by decide) (by decide)⟩

/-- C5: whenever `update_instance` fails any of its NotFound checks, the
whole database state — every table and every field of every row — is
returned exactly as it was. -/
theorem update_instance_no_mutation_on_failure (iid : Int)
    (u : InstanceCreate) (db : DB)
    (h : ∃ e, (update_instance iid u db).1 = Except.error e) :
    (update_instance iid u db).2 = db := by
  obtain ⟨e, he⟩ := h
  cases hfi : firstInstance db iid with
  | none => simp [update_instance, hfi]
  | some ex =>
    by_cases hp : (firstProject db u.project_id).isNone
    · simp [update_instance, hfi, hp]
    · by_cases hi : (firstItem db u.item_id).isNone
      · simp [update_instance, hfi, hp, hi]
      · simp [update_instance, hfi, hp, hi] at he

/-- Witness for C5: a failing update at a concrete database leaves the
state untouched. -/
theorem update_instance_no_mutation_on_failure_witness :
    (update_instance 1 badCreate sampleDB).2 = sampleDB :=
  update_instance_no_mutation_on_failure 1 badCreate sampleDB
    ⟨⟨404, "Project not found"⟩, rfl⟩

/-- C9: deleting an existing instance answers with the declared HTTP
status 204 together with the JSON body
`{"message": "Instance deleted successfully"}`. -/
theorem delete_instance_success_204 (iid : Int) (db : DB)
    (h : (firstInstance db iid).isSome) :
    (delete_instance iid db).1 = Except.ok
      { status_code := 204, message := "Instance deleted successfully" } := by
  obtain ⟨ex, hex⟩ := Option.isSome_iff_exists.mp h
  simp [delete_instance, hex]

/-- Witness for C9: deleting instance 1 of the sample database. -/
theorem delete_instance_success_204_witness :
    (delete_instance 1 sampleDB).1 = Except.ok
      { status_code := 204, message := "Instance deleted successfully" } :=
  delete_instance_success_204 1 sampleDB (by decide)

/-- C10: `get_instance` and `list_instances` are read-only: whatever the
database state and the requested id, both hand the state back exactly
as it was, on success as on NotFound. -/
theorem get_list_readonly (iid : Int) (db : DB) :
    (get_instance iid db).2 = db ∧ (list_instances db).2 = db := by
  refine ⟨?_, rfl⟩
  cases hfi : firstInstance db iid with
  | none => simp [get_instance, hfi]
  | some ex => simp [get_instance, hfi]

/-- The row produced by a successful update: the primary key of the
existing row, every other field taken verbatim from the request. -/
def appliedUpdate (ex : Instance) (u : InstanceCreate) : Instance :=
  { id := ex.id
    project_id := u.project_id
    item_id := u.item_id
    position_x := u.position_x
    position_y := u.position_y
    position_z := u.position_z
    rotation_x := u.rotation_x
    rotation_y := u.rotation_y
    rotation_z := u.rotation_z
    scale_x := u.scale_x
    scale_y := u.scale_y
    scale_z := u.scale_z }

/-- C2: when instance, project and item all resolve, `update_instance`
overwrites both foreign keys and all nine transform fields of the
targeted row with the request's values — no merge with the prior
values — and returns that fully updated row. -/
theorem update_instance_full_replace (iid : Int) (u : InstanceCreate)
    (db : DB) (ex : Instance)
    (h1 : firstInstance db iid = some ex)
    (h2 : (firstProject db u.project_id).isSome)
    (h3 : (firstItem db u.item_id).isSome) :
    (update_instance iid u db).1 = Except.ok (appliedUpdate ex u) ∧
    firstInstance (update_instance iid u db).2 iid =
      some (appliedUpdate ex u) := by
  have h1' : db.instances.find? (fun r => r.id == iid) = some ex := h1
  have hex : (ex.id == iid) = true :=
    @List.find?_some Instance (fun r => r.id == iid) ex db.instances h1'
  obtain ⟨p, hp⟩ := Option.isSome_iff_exists.mp h2
  obtain ⟨it, hit⟩ := Option.isSome_iff_exists.mp h3
  constructor
  · simp [update_instance, h1, hp, hit, appliedUpdate]
  · have hinst : (update_instance iid u db).2.instances =
        assignFirst (fun r => r.id == iid) (appliedUpdate ex u)
          db.instances := by
      simp [update_instance, h1, hp, hit, appliedUpdate]
    unfold firstInstance
    rw [hinst]
    apply find?_assignFirst
    · exact hex
    · rw [h1']
      rfl

/-- Witness for C2 at the sample database: updating instance 1 with
`sampleCreate` returns the row rebuilt from the request. -/
theorem update_instance_full_replace_witness :
    (update_instance 1 sampleCreate sampleDB).1 =
      Except.ok (appliedUpdate sampleInstance sampleCreate) :=
  (update_instance_full_replace 1 sampleCreate sampleDB sampleInstance
    rfl (by decide) (by decide)).1

/-- C3: reading a freshly created instance back by its assigned id
returns the very row that create returned, field for field. -/
theorem get_create_roundtrip (x : InstanceCreate) (db : DB)
    (row : Instance)
    (hfresh : ∀ r ∈ db.instances, r.id ≠ db.next_id)
    (hok : (create_instance x db).1 = Except.ok row) :
    (get_instance row.id (create_instance x db).2).1 = Except.ok row := by
  by_cases hp : (firstProject db x.project_id).isNone
  · simp [create_instance, hp] at hok
  · by_cases hi : (firstItem db x.item_id).isNone
    · simp [create_instance, hp, hi] at hok
    · have hrow : row.id = db.next_id := by
        simp [create_instance, hp, hi] at hok
        rw [← hok]
      have hinst : (create_instance x db).2.instances =
          db.instances ++ [row] := by
        simp [create_instance, hp, hi] at hok ⊢
        rw [← hok]
      have hfound : firstInstance (create_instance x db).2 row.id =
          some row := by
        unfold firstInstance
        rw [hinst, List.find?_append]
        have hnone : db.instances.find? (fun r => r.id == row.id) =
            none := by
          rw [List.find?_eq_none]
          intro y hy
          simp only [beq_iff_eq, hrow]
          exact hfresh y hy
        rw [hnone, Option.none_or]
        simp [List.find?_cons]
      simp [get_instance, hfound]

/-- The row created by `sampleCreate` against `sampleDB` (assigned
primary key 2). -/
def createdRow : Instance :=
  { id := 2, project_id := 1, item_id := 1
    position_x := 3, position_y := 4, position_z := 5
    rotation_x := 6, rotation_y := 7, rotation_z := 8
    scale_x := 9, scale_y := 10, scale_z := 11 }

/-- Witness for C3: create against the sample database, then get at the
assigned id, returns the created row. -/
theorem get_create_roundtrip_witness :
    (get_instance createdRow.id (create_instance sampleCreate sampleDB).2).1
      = Except.ok createdRow :=
  get_create_roundtrip sampleCreate sampleDB createdRow (by decide) rfl

/-- C6: deleting an existing instance succeeds and removes the row (no
row with that id remains), and a second delete of the same id yields
404 "Instance not found". -/
theorem delete_instance_twice (iid : Int) (db : DB)
    (hnd : (db.instances.map Instance.id).Nodup)
    (h : (firstInstance db iid).isSome) :
    (delete_instance iid db).1 =
      Except.ok ⟨204, "Instance deleted successfully"⟩ ∧
    firstInstance (delete_instance iid db).2 iid = none ∧
    (delete_instance iid (delete_instance iid db).2).1 =
      Except.error ⟨404, "Instance not found"⟩ := by
  obtain ⟨ex, hex⟩ := Option.isSome_iff_exists.mp h
  have h2 : firstInstance (delete_instance iid db).2 iid = none := by
    have hinst : (delete_instance iid db).2.instances =
        db.instances.eraseP (fun r => r.id == iid) := by
      simp [delete_instance, hex]
    unfold firstInstance
    rw [hinst]
    exact find?_eraseP_id_none db.instances iid hnd
  refine ⟨by simp [delete_instance, hex], h2, ?_⟩
  generalize (delete_instance iid db).2 = db1 at h2
  simp [delete_instance, h2]

/-- Witness for C6: double delete of instance 1 of the sample database;
the second call reports "Instance not found". -/
theorem delete_instance_twice_witness :
    (delete_instance 1 (delete_instance 1 sampleDB).2).1 =
      Except.error ⟨404, "Instance not found"⟩ :=
  (delete_instance_twice 1 sampleDB (by decide) (by decide)).2.2

/-- A valid create inserts exactly the returned row at the end of the
instance table and leaves the project and item tables unchanged. -/
theorem create_instance_ok (x : InstanceCreate) (db : DB)
    (hp : (firstProject db x.project_id).isSome)
    (hi : (firstItem db x.item_id).isSome) :
    ∃ row db1, create_instance x db = (Except.ok row, db1) ∧
      db1.projects = db.projects ∧ db1.items = db.items ∧
      db1.instances = db.instances ++ [row] := by
  obtain ⟨p, hp'⟩ := Option.isSome_iff_exists.mp hp
  obtain ⟨it, hi'⟩ := Option.isSome_iff_exists.mp hi
  unfold create_instance
  simp only [hp', hi', Option.isNone_some, Bool.false_eq_true, if_false]
  refine ⟨_, _, rfl, ?_, ?_, ?_⟩ <;> rfl

/-- `firstProject` reads only the project table. -/
theorem firstProject_congr (db1 db : DB)
    (h : db1.projects = db.projects) (pid : Int) :
    firstProject db1 pid = firstProject db pid := by
  unfold firstProject
  rw [h]

/-- `firstItem` reads only the item table. -/
theorem firstItem_congr (db1 db : DB)
    (h : db1.items = db.items) (iid : Int) :
    firstItem db1 iid = firstItem db iid := by
  unfold firstItem
  rw [h]

/-- C7: `list_instances` never fails and returns exactly the stored
rows; after N valid creates it returns the prior rows followed by
exactly the N rows those creates returned. -/
theorem list_instances_complete (xs : List InstanceCreate) (db : DB)
    (h : ∀ x ∈ xs, (firstProject db x.project_id).isSome ∧
      (firstItem db x.item_id).isSome) :
    list_instances db = (db.instances, db) ∧
    (createMany xs db).1.length = xs.length ∧
    (createMany xs db).2.instances =
      db.instances ++ (createMany xs db).1 := by
  refine ⟨rfl, ?_⟩
  induction xs generalizing db with
  | nil => simp [createMany]
  | cons x rest ih =>
    obtain ⟨row, db1, hrow, hproj, hitems, hinst⟩ :=
      create_instance_ok x db (h x (by simp)).1 (h x (by simp)).2
    have h' : ∀ y ∈ rest, (firstProject db1 y.project_id).isSome ∧
        (firstItem db1 y.item_id).isSome := by
      intro y hy
      rw [firstProject_congr db1 db hproj, firstItem_congr db1 db hitems]
      exact h y (List.mem_cons_of_mem x hy)
    have key : createMany (x :: rest) db =
        (row :: (createMany rest db1).1, (createMany rest db1).2) := by
      simp only [createMany, hrow]
    rw [key]
    refine ⟨by simp [(ih db1 h').1], ?_⟩
    rw [(ih db1 h').2, hinst]
    simp

/-- Witness for C7: two valid creates against the sample database give
two new rows, appended after the pre-existing ones. -/
theorem list_instances_complete_witness :
    (createMany [sampleCreate, sampleCreate] sampleDB).1.length = 2 ∧
    (createMany [sampleCreate, sampleCreate] sampleDB).2.instances =
      sampleDB.instances ++
        (createMany [sampleCreate, sampleCreate] sampleDB).1 :=
  ⟨(list_instances_complete [sampleCreate, sampleCreate] sampleDB
      (by decide)).2.1,
    (list_instances_complete [sampleCreate, sampleCreate] sampleDB
      (by decide)).2.2⟩

/-- C8: primary keys are immutable: update preserves the list of ids
(it rewrites every other field of the targeted row but never assigns
`id`), create only adds a row under the fresh id, get and list change
nothing, and delete only removes rows — no operation rewrites the id of
a surviving row. -/
theorem instance_id_immutable (iid gid did : Int) (u x : InstanceCreate)
    (db : DB) :
    (update_instance iid u db).2.instances.map Instance.id =
      db.instances.map Instance.id ∧
    (∀ r ∈ (create_instance x db).2.instances,
      r ∈ db.instances ∨ r.id = db.next_id) ∧
    (get_instance gid db).2 = db ∧
    (list_instances db).2 = db ∧
    (∀ r ∈ (delete_instance did db).2.instances, r ∈ db.instances) := by
  refine ⟨?_, ?_, ?_, rfl, ?_⟩
  · cases hfi : firstInstance db iid with
    | none => simp [update_instance, hfi]
    | some ex =>
      by_cases hp : (firstProject db u.project_id).isNone
      · simp [update_instance, hfi, hp]
      · by_cases hi : (firstItem db u.item_id).isNone
        · simp [update_instance, hfi, hp, hi]
        · have h1' : db.instances.find? (fun r => r.id == iid) =
              some ex := hfi
          have hex : (ex.id == iid) = true :=
            @List.find?_some Instance (fun r => r.id == iid) ex
              db.instances h1'
          have hinst : (update_instance iid u db).2.instances =
              assignFirst (fun r => r.id == iid) (appliedUpdate ex u)
                db.instances := by
            simp [update_instance, hfi, hp, hi, appliedUpdate]
          rw [hinst]
          apply map_id_assignFirst
          intro y hy hyid
          have e1 : ex.id = iid := by simpa using hex
          have e2 : y.id = iid := by simpa using hyid
          show ex.id = y.id
          rw [e1, e2]
  · intro r hr
    by_cases hp : (firstProject db x.project_id).isNone
    · simp only [create_instance, hp, if_true] at hr
      exact Or.inl hr
    · by_cases hi : (firstItem db x.item_id).isNone
      · simp [create_instance, hp, hi] at hr
        exact Or.inl hr
      · simp [create_instance, hp, hi] at hr
        rcases hr with hr | hr
        · exact Or.inl hr
        · right
          rw [hr]
  · cases hfi : firstInstance db gid with
    | none => simp [get_instance, hfi]
    | some ex => simp [get_instance, hfi]
  · intro r hr
    cases hfi : firstInstance db did with
    | none =>
      simp [delete_instance, hfi] at hr
      exact hr
    | some ex =>
      simp [delete_instance, hfi] at hr
      exact List.mem_of_mem_eraseP hr

/-- Witness for C8: a concrete update against the sample database
keeps the list of primary keys intact. -/
theorem instance_id_immutable_witness :
    (update_instance 1 sampleCreate sampleDB).2.instances.map Instance.id
      = sampleDB.instances.map Instance.id :=
  (instance_id_immutable 1 1 1 sampleCreate sampleCreate sampleDB).1

end Arpas
